import Mathlib

/-!
Verification development for the xAI MCP server (joemccann/xai-mcp-server).

The TypeScript sources are shallowly embedded as Lean definitions:

* JavaScript objects become Lean structures; optional / possibly-`undefined`
  fields become `Option`; JavaScript numbers used by the adapter (sampling
  parameters, counts, durations) become `Rat`, which represents every value the
  validation logic compares exactly.
* `JSON.stringify(v, null, 2)` is embedded as `renderJson` over a small `Json`
  inductive (object fields in insertion order, `undefined` fields omitted by
  construction of the `Json` value).
* Each tool handler is a pure function from its raw input and an oracle for
  the upstream HTTP layer to a result `Except String String` (a thrown
  exception is `.error msg`) together with the list of upstream requests it
  issued, in order.  The oracle abstracts `fetch`: it maps each request the
  code would send to the response the upstream returns.
* JavaScript truthiness tests on strings / arrays / numbers are embedded
  exactly (`""`, `[]`-length `0` and `0` are falsy).
-/

/-! ## JSON values and `JSON.stringify(v, null, 2)` -/

/-- JSON values.  An `undefined` object field is simply absent from the
`obj` field list, mirroring `JSON.stringify`'s omission of `undefined`. -/
inductive Json where
  | null : Json
  | bool (b : Bool) : Json
  | num (q : Rat) : Json
  | str (s : String) : Json
  | arr (xs : List Json) : Json
  | obj (fields : List (String × Json)) : Json

/-- Hex digit for code points below 16. -/
def hexDigit (n : Nat) : Char :=
  if n < 10 then Char.ofNat (48 + n) else Char.ofNat (87 + n)

/-- Four-digit hex rendering used by JSON string escapes (`\u00XX`). -/
def hex4 (n : Nat) : String :=
  String.mk [hexDigit (n / 4096 % 16), hexDigit (n / 256 % 16),
             hexDigit (n / 16 % 16), hexDigit (n % 16)]

/-- Escape of one character inside a JSON string literal, as produced by
`JSON.stringify`. -/
def jsonEscapeChar (c : Char) : String :=
  if c = '"' then "\\\""
  else if c = '\\' then "\\\\"
  else if c = '\n' then "\\n"
  else if c = '\r' then "\\r"
  else if c = '\t' then "\\t"
  else if c = '\x08' then "\\b"
  else if c = '\x0c' then "\\f"
  else if c.toNat < 32 then "\\u" ++ hex4 c.toNat
  else String.singleton c

/-- JSON string-literal escaping, as produced by `JSON.stringify`. -/
def jsonEscape (s : String) : String :=
  String.join (s.toList.map jsonEscapeChar)

/-- `n` spaces, for `JSON.stringify`'s two-space indentation. -/
def indentStr (n : Nat) : String :=
  String.mk (List.replicate n ' ')

/-- JavaScript `Number` → `String` conversion, for the numbers this adapter
prints (integral values render exactly as in JavaScript; the adapter's
claims only evaluate it on integral values). -/
def jsNumToString (q : Rat) : String :=
  if q.den = 1 then toString q.num
  else toString q.num ++ "/" ++ toString q.den

mutual

/-- `JSON.stringify(v, null, 2)` at an ambient indentation level. -/
def renderJson (ind : Nat) : Json → String
  | Json.null => "null"
  | Json.bool b => if b then "true" else "false"
  | Json.num q => jsNumToString q
  | Json.str s => "\"" ++ jsonEscape s ++ "\""
  | Json.arr [] => "[]"
  | Json.arr (x :: xs) =>
      "[\n" ++ renderItems (ind + 2) x xs ++ "\n" ++ indentStr ind ++ "]"
  | Json.obj [] => "\x7b\x7d"
  | Json.obj (f :: fs) =>
      "\x7b\n" ++ renderFields (ind + 2) f fs ++ "\n" ++ indentStr ind ++ "\x7d"
termination_by j => sizeOf j
decreasing_by
all_goals simp_wf
all_goals omega

/-- Comma-separated, indented array items. -/
def renderItems (ind : Nat) (x : Json) : List Json → String
  | [] => indentStr ind ++ renderJson ind x
  | y :: ys => indentStr ind ++ renderJson ind x ++ ",\n" ++ renderItems ind y ys
termination_by ys => sizeOf x + sizeOf ys
decreasing_by
all_goals simp_wf
all_goals omega

/-- Comma-separated, indented object fields. -/
def renderFields (ind : Nat) (f : String × Json) : List (String × Json) → String
  | [] => indentStr ind ++ "\"" ++ jsonEscape f.1 ++ "\": " ++ renderJson ind f.2
  | g :: gs =>
      indentStr ind ++ "\"" ++ jsonEscape f.1 ++ "\": " ++ renderJson ind f.2 ++
        ",\n" ++ renderFields ind g gs
termination_by gs => sizeOf f + sizeOf gs
decreasing_by
all_goals simp_wf
all_goals cases f
all_goals try simp
all_goals omega

end

/-- Object field present only when the value is defined, mirroring
`JSON.stringify`'s omission of `undefined` fields. -/
def optField (k : String) : Option Json → List (String × Json)
  | some v => [(k, v)]
  | none => []

/-- JavaScript truthiness of an optional string (`undefined` and `""` are
falsy). -/
def truthyStr : Option String → Bool
  | some s => s ≠ ""
  | none => false

/-- JavaScript truthiness of `xs?.length` for an optional array
(`undefined` and length `0` are falsy). -/
def truthyLen : Option (List String) → Bool
  | some xs => xs.length ≠ 0
  | none => false

/-! ## Dispatcher (`src/index.ts`, CallToolRequestSchema handler)

The five registered tool names route to their handlers inside a single
`try`; the `default` arm throws `Unknown tool: <name>`, and the `catch`
converts any thrown error into one result whose text is
`JSON.stringify({success:false, error:<message>}, null, 2)` with `isError`
set.  A handler outcome is abstracted as `Except String String`: `.ok` is
the returned result string, `.error` the thrown error's `.message`. -/

/-- The five registered tool names. -/
inductive ToolName where
  | generate_image : ToolName
  | chat : ToolName
  | analyze_image : ToolName
  | live_search : ToolName
  | generate_video : ToolName
deriving Repr, DecidableEq

/-- The `switch (name)` of the dispatcher: which registered tool, if any, a
raw tool name resolves to. -/
def parseToolName (s : String) : Option ToolName :=
  if s = "generate_image" then some ToolName.generate_image
  else if s = "chat" then some ToolName.chat
  else if s = "analyze_image" then some ToolName.analyze_image
  else if s = "live_search" then some ToolName.live_search
  else if s = "generate_video" then some ToolName.generate_video
  else none

/-- The one result the dispatcher returns for a call: the text content and
the out-of-band `isError` flag (absent in the source on success, i.e.
`false`). -/
structure ToolResponse where
  text : String
  isError : Bool
deriving Repr, DecidableEq

/-- `JSON.stringify({ success: false, error: msg }, null, 2)`: the error
envelope produced by the dispatcher's `catch`. -/
def errorEnvelope (msg : String) : String :=
  renderJson 0 (Json.obj [("success", Json.bool false), ("error", Json.str msg)])

/-- The CallToolRequestSchema handler of `src/index.ts`.  `handlers t` is
the outcome of running tool `t`'s handler on the delivered arguments. -/
def dispatchToolCall (handlers : ToolName → Except String String)
    (name : String) : ToolResponse :=
  match parseToolName name with
  | some t =>
      match handlers t with
      | Except.ok r => { text := r, isError := false }
      | Except.error m => { text := errorEnvelope m, isError := true }
  | none =>
      { text := errorEnvelope ("Unknown tool: " ++ name), isError := true }

/-! ## Upstream HTTP wrapper (`XAIClient.request`)

`request` performs exactly one `fetch`; on `!response.ok` it throws
`xAI API error (<status>): <body>`.  The embedding takes the single HTTP
response and returns the outcome together with the number of fetches
performed (structurally `1`: the source has no retry loop). -/

/-- One upstream HTTP response: numeric status and raw body text. -/
structure HttpResponse where
  status : Nat
  body : String
deriving Repr, DecidableEq

/-- `Response.ok` of `fetch`: status in the inclusive range 200–299. -/
def respOk (r : HttpResponse) : Bool :=
  200 ≤ r.status && r.status < 300

/-- Outcome of `XAIClient.request` on a given HTTP response. -/
def requestResult (r : HttpResponse) : Except String String :=
  if respOk r then Except.ok r.body
  else Except.error ("xAI API error (" ++ toString r.status ++ "): " ++ r.body)

/-- `XAIClient.request`: outcome paired with the number of HTTP calls
issued (always exactly one — the source performs a single `fetch` and has
no retry or status-specific branch). -/
def request (r : HttpResponse) : Except String String × Nat :=
  (requestResult r, 1)

/-! ## Video status polling (`XAIClient.pollVideoCompletion`)

The loop runs `for (i = 0; i < maxAttempts; i++)`: each iteration issues one
`getVideoStatus` HTTP call; it returns on explicit status `completed` or
`failed`, returns with status forced to `completed` when the response's
`url` is truthy (non-empty), and otherwise sleeps `intervalMs` and retries.
Exhausting the attempts throws `Video generation timed out`.  The embedding
takes the sequence of upstream status responses (`getStatus i` is the
response to the `i`-th poll) and records the number of polls and the sleeps
performed. -/

/-- The explicit job statuses of `VideoStatusResponse.status`. -/
inductive VideoStatus where
  | pending : VideoStatus
  | processing : VideoStatus
  | completed : VideoStatus
  | failed : VideoStatus
deriving Repr, DecidableEq

/-- `VideoStatusResponse` of the client: every field optional on the wire. -/
structure VideoStatusResponse where
  url : Option String
  duration : Option Rat
  status : Option VideoStatus
  error : Option String
deriving Repr, DecidableEq

/-- Default `maxAttempts` of `pollVideoCompletion`. -/
def pollDefaultMaxAttempts : Nat := 60

/-- Default `intervalMs` of `pollVideoCompletion`. -/
def pollDefaultIntervalMs : Nat := 5000

/-- Outcome of a polling run: the returned status (or thrown timeout), the
number of status polls issued, and the list of sleep durations performed. -/
structure PollTrace where
  result : Except String VideoStatusResponse
  polls : Nat
  waits : List Nat
deriving Repr

/-- The polling loop body, indexed by the current attempt `i` and the
remaining attempts (fuel). -/
def pollLoop (getStatus : Nat → VideoStatusResponse) (intervalMs : Nat) :
    Nat → Nat → PollTrace
  | _, 0 => { result := Except.error "Video generation timed out", polls := 0, waits := [] }
  | i, fuel + 1 =>
      let status := getStatus i
      if status.status = some VideoStatus.completed ∨ status.status = some VideoStatus.failed then
        { result := Except.ok status, polls := 1, waits := [] }
      else if truthyStr status.url then
        { result := Except.ok { status with status := some VideoStatus.completed },
          polls := 1, waits := [] }
      else
        let t := pollLoop getStatus intervalMs (i + 1) fuel
        { result := t.result, polls := t.polls + 1, waits := intervalMs :: t.waits }

/-- `XAIClient.pollVideoCompletion requestId maxAttempts intervalMs`, over
the sequence of status responses the upstream returns. -/
def pollVideoCompletion (getStatus : Nat → VideoStatusResponse)
    (maxAttempts intervalMs : Nat) : PollTrace :=
  pollLoop getStatus intervalMs 0 maxAttempts

/-! ## Chat data types (`xai-client.ts`) -/

/-- Roles of the chat completions endpoint. -/
inductive ChatRole where
  | system : ChatRole
  | user : ChatRole
  | assistant : ChatRole
  | developer : ChatRole
deriving Repr, DecidableEq

/-- The `image_url` part payload: URL plus optional detail hint. -/
structure ImageUrlPart where
  url : String
  detail : Option String
deriving Repr, DecidableEq

/-- A content part of a multimodal user message. -/
inductive ContentPart where
  | text (s : String) : ContentPart
  | image_url (p : ImageUrlPart) : ContentPart
deriving Repr, DecidableEq

/-- Chat message content: a plain string or a list of parts. -/
inductive ChatContent where
  | str (s : String) : ChatContent
  | parts (ps : List ContentPart) : ChatContent
deriving Repr, DecidableEq

/-- One chat message. -/
structure ChatMessage where
  role : ChatRole
  content : ChatContent
deriving Repr, DecidableEq

/-- `ChatCompletionRequest`: body of POST `/chat/completions`.  `Option`
fields are omitted from the JSON body when `none` (`undefined`). -/
structure ChatCompletionRequest where
  model : String
  messages : List ChatMessage
  temperature : Option Rat
  max_tokens : Option Rat
  stream : Option Bool
  top_p : Option Rat
  frequency_penalty : Option Rat
  presence_penalty : Option Rat
deriving Repr, DecidableEq

/-- The message inside a returned choice; `content` is `none` when the wire
value is missing or `null` (the handler guards it with `?.`). -/
structure ChatChoiceMessage where
  role : String
  content : Option String
deriving Repr, DecidableEq

/-- One choice of a chat completion response. -/
structure ChatChoice where
  index : Nat
  message : ChatChoiceMessage
  finish_reason : String
deriving Repr, DecidableEq

/-- Token usage accounting. -/
structure ChatUsage where
  prompt_tokens : Nat
  completion_tokens : Nat
  total_tokens : Nat
deriving Repr, DecidableEq

/-- `ChatCompletionResponse` of POST `/chat/completions`. -/
structure ChatCompletionResponse where
  id : String
  object : String
  created : Nat
  model : String
  choices : List ChatChoice
  usage : ChatUsage
deriving Repr, DecidableEq

/-- JavaScript `a || d` for an optional string `a` (`undefined`, `null`
and `""` all fall through to the default). -/
def jsOrElse (o : Option String) (d : String) : String :=
  match o with
  | some s => if s = "" then d else s
  | none => d

/-! ## `chat` tool (`src/tools/chat.ts`) -/

/-- Raw `chat` input as delivered by the host (fields absent ⇒ `none`). -/
structure ChatInput where
  message : String
  model : Option String
  system_prompt : Option String
  temperature : Option Rat
  max_tokens : Option Rat
  top_p : Option Rat
  frequency_penalty : Option Rat
  presence_penalty : Option Rat
deriving Repr, DecidableEq

/-- `chat` input after `chatSchema.parse`: defaults applied, ranges checked. -/
structure ChatValidated where
  message : String
  model : String
  system_prompt : Option String
  temperature : Rat
  max_tokens : Option Rat
  top_p : Option Rat
  frequency_penalty : Option Rat
  presence_penalty : Option Rat
deriving Repr, DecidableEq

/-- Zod `z.number().min(lo).max(hi).optional()`: an absent value passes, a
present value must lie in the inclusive range. -/
def ratInRange (lo hi : Rat) : Option Rat → Bool
  | some q => lo ≤ q && q ≤ hi
  | none => true

/-- Default temperature `0.7` of `chatSchema`. -/
def chatDefaultTemperature : Rat := 7 / 10

/-- `chatSchema.parse`: range checks of `temperature` (0–2), `top_p` (0–1),
`frequency_penalty` and `presence_penalty` (−2–2); defaults `model :=
"grok-3"` and `temperature := 0.7`.  (The exact ZodError message text is
not modelled; a failed parse throws.) -/
def chatSchemaParse (i : ChatInput) : Except String ChatValidated :=
  if !ratInRange 0 2 i.temperature then
    Except.error "chat: temperature must be between 0 and 2"
  else if !ratInRange 0 1 i.top_p then
    Except.error "chat: top_p must be between 0 and 1"
  else if !ratInRange (-2) 2 i.frequency_penalty then
    Except.error "chat: frequency_penalty must be between -2 and 2"
  else if !ratInRange (-2) 2 i.presence_penalty then
    Except.error "chat: presence_penalty must be between -2 and 2"
  else
    Except.ok
      { message := i.message
        model := i.model.getD "grok-3"
        system_prompt := i.system_prompt
        temperature := i.temperature.getD chatDefaultTemperature
        max_tokens := i.max_tokens
        top_p := i.top_p
        frequency_penalty := i.frequency_penalty
        presence_penalty := i.presence_penalty }

/-- The message list `handleChat` builds: a leading system message only when
`validated.system_prompt` is truthy (present and non-empty), then the single
user message. -/
def chatMessages (v : ChatValidated) : List ChatMessage :=
  (match v.system_prompt with
   | some s => if s = "" then [] else [{ role := ChatRole.system, content := ChatContent.str s }]
   | none => []) ++
  [{ role := ChatRole.user, content := ChatContent.str v.message }]

/-- The `ChatCompletionRequest` that `handleChat` sends upstream. -/
def chatRequest (v : ChatValidated) : ChatCompletionRequest :=
  { model := v.model
    messages := chatMessages v
    temperature := some v.temperature
    max_tokens := v.max_tokens
    stream := none
    top_p := v.top_p
    frequency_penalty := v.frequency_penalty
    presence_penalty := v.presence_penalty }

/-- `response.choices[0]?.message?.content || "No response"`. -/
def chatReply (r : ChatCompletionResponse) : String :=
  jsOrElse (r.choices.head?.bind (fun c => c.message.content)) "No response"

/-- Token usage object of the `chat` tool output. -/
def chatUsageJson (u : ChatUsage) : Json :=
  Json.obj [("prompt_tokens", Json.num (u.prompt_tokens : Rat)),
            ("completion_tokens", Json.num (u.completion_tokens : Rat)),
            ("total_tokens", Json.num (u.total_tokens : Rat))]

/-- The object `handleChat` stringifies on success; `finish_reason` comes
from `choices[0]?.finish_reason` and is omitted when there is no choice. -/
def chatOutputJson (r : ChatCompletionResponse) : Json :=
  Json.obj
    ([("success", Json.bool true),
      ("model", Json.str r.model),
      ("response", Json.str (chatReply r)),
      ("usage", chatUsageJson r.usage)] ++
     optField "finish_reason" (r.choices.head?.map (fun c => Json.str c.finish_reason)))

/-- `handleChat`: validate, build the message list and request, call the
chat completions endpoint once, and stringify the normalized result.  The
second component is the list of upstream requests issued. -/
def handleChat (oracle : ChatCompletionRequest → Except String ChatCompletionResponse)
    (input : ChatInput) : Except String String × List ChatCompletionRequest :=
  match chatSchemaParse input with
  | Except.error e => (Except.error e, [])
  | Except.ok v =>
      let req := chatRequest v
      match oracle req with
      | Except.error e => (Except.error e, [req])
      | Except.ok resp => (Except.ok (renderJson 0 (chatOutputJson resp)), [req])

/-! ## `generate_image` tool (`src/tools/generate-image.ts`) -/

/-- The aspect-ratio enum shared by the image and video schemas. -/
def aspectRatios : List String := ["16:9", "4:3", "1:1", "9:16", "3:4", "3:2", "2:3"]

/-- Zod enum on an optional string: an absent value passes, a present value
must be one of the allowed literals. -/
def optEnumOk (allowed : List String) : Option String → Bool
  | some s => allowed.contains s
  | none => true

/-- Raw `generate_image` input. -/
structure GenerateImageInput where
  prompt : String
  n : Option Rat
  model : Option String
  aspect_ratio : Option String
  response_format : Option String
deriving Repr, DecidableEq

/-- `generate_image` input after `generateImageSchema.parse`. -/
structure GenerateImageValidated where
  prompt : String
  n : Rat
  model : String
  aspect_ratio : Option String
  response_format : String
deriving Repr, DecidableEq

/-- `generateImageSchema.parse`: `n` in 1–10 (default 1), aspect ratio from
the fixed enum, response format `url`/`b64_json` (default `url`). -/
def generateImageSchemaParse (i : GenerateImageInput) :
    Except String GenerateImageValidated :=
  if !ratInRange 1 10 i.n then
    Except.error "generate_image: n must be between 1 and 10"
  else if !optEnumOk aspectRatios i.aspect_ratio then
    Except.error "generate_image: invalid aspect_ratio"
  else if !optEnumOk ["url", "b64_json"] i.response_format then
    Except.error "generate_image: invalid response_format"
  else
    Except.ok
      { prompt := i.prompt
        n := i.n.getD 1
        model := i.model.getD "grok-2-image-1212"
        aspect_ratio := i.aspect_ratio
        response_format := i.response_format.getD "url" }

/-- `ImageGenerationRequest`: body of POST `/images/generations`. -/
structure ImageGenerationRequest where
  model : String
  prompt : String
  n : Option Rat
  response_format : Option String
  aspect_ratio : Option String
deriving Repr, DecidableEq

/-- One generated image of the response. -/
structure ImageData where
  url : Option String
  b64_json : Option String
  revised_prompt : Option String
deriving Repr, DecidableEq

/-- `ImageGenerationResponse` of POST `/images/generations`. -/
structure ImageGenerationResponse where
  created : Nat
  data : List ImageData
deriving Repr, DecidableEq

/-- `img.b64_json?.substring(0, 100) ?? ""`: the deliberate truncation of
inline-encoded payloads for display. -/
def jsTruncate100 (s : String) : String :=
  String.mk (s.toList.take 100)

/-- One entry of the `images` array in the `b64_json` output branch. -/
def imageB64Json (i : Nat) (img : ImageData) : Json :=
  Json.obj
    ([("index", Json.num ((i + 1 : Nat) : Rat)),
      ("base64", Json.str ((match img.b64_json with
                            | some s => jsTruncate100 s
                            | none => "") ++ "..."))] ++
     optField "revised_prompt" (img.revised_prompt.map Json.str))

/-- One entry of the `images` array in the `url` output branch. -/
def imageUrlJson (i : Nat) (img : ImageData) : Json :=
  Json.obj
    ([("index", Json.num ((i + 1 : Nat) : Rat))] ++
     optField "url" (img.url.map Json.str) ++
     optField "revised_prompt" (img.revised_prompt.map Json.str))

/-- `handleGenerateImage`: validate, call the image-generation endpoint
once, normalize (truncating base64 payloads when inline-encoded). -/
def handleGenerateImage
    (oracle : ImageGenerationRequest → Except String ImageGenerationResponse)
    (input : GenerateImageInput) : Except String String × List ImageGenerationRequest :=
  match generateImageSchemaParse input with
  | Except.error e => (Except.error e, [])
  | Except.ok v =>
      let req : ImageGenerationRequest :=
        { model := v.model, prompt := v.prompt, n := some v.n,
          response_format := some v.response_format, aspect_ratio := v.aspect_ratio }
      match oracle req with
      | Except.error e => (Except.error e, [req])
      | Except.ok resp =>
          if v.response_format = "b64_json" then
            (Except.ok (renderJson 0 (Json.obj
              [("success", Json.bool true),
               ("images", Json.arr (resp.data.enum.map (fun p => imageB64Json p.1 p.2))),
               ("count", Json.num (resp.data.length : Rat)),
               ("note", Json.str "Base64 data truncated for display. Full data available in raw response.")])),
             [req])
          else
            (Except.ok (renderJson 0 (Json.obj
              [("success", Json.bool true),
               ("images", Json.arr (resp.data.enum.map (fun p => imageUrlJson p.1 p.2))),
               ("count", Json.num (resp.data.length : Rat))])),
             [req])

/-! ## `generate_video` tool (`src/tools/generate-video.ts`) -/

/-- `VideoGenerationRequest`: body of POST `/videos/generations`. -/
structure VideoGenerationRequest where
  model : String
  prompt : String
  image_url : Option String
  video_url : Option String
  duration : Option Rat
  aspect_ratio : Option String
  resolution : Option String
deriving Repr, DecidableEq

/-- `VideoEditRequest`: body of POST `/videos/edits`.  The client type has
no `duration` field at all. -/
structure VideoEditRequest where
  model : String
  prompt : String
  video_url : String
  aspect_ratio : Option String
  resolution : Option String
deriving Repr, DecidableEq

/-- `VideoGenerationResponse`: the job identifier. -/
structure VideoGenerationResponse where
  request_id : String
deriving Repr, DecidableEq

/-- Keys present in the serialized `/videos/generations` body
(`JSON.stringify` omits `undefined` fields). -/
def videoGenerationRequestKeys (r : VideoGenerationRequest) : List String :=
  ["model", "prompt"] ++
  (if r.image_url.isSome then ["image_url"] else []) ++
  (if r.video_url.isSome then ["video_url"] else []) ++
  (if r.duration.isSome then ["duration"] else []) ++
  (if r.aspect_ratio.isSome then ["aspect_ratio"] else []) ++
  (if r.resolution.isSome then ["resolution"] else [])

/-- Keys present in the serialized `/videos/edits` body. -/
def videoEditRequestKeys (r : VideoEditRequest) : List String :=
  ["model", "prompt", "video_url"] ++
  (if r.aspect_ratio.isSome then ["aspect_ratio"] else []) ++
  (if r.resolution.isSome then ["resolution"] else [])

/-- One upstream call made by the `generate_video` handler: the generation
endpoint, the edit endpoint, or one status poll GET `/videos/{id}`. -/
inductive VideoCall where
  | generation (r : VideoGenerationRequest) : VideoCall
  | edit (r : VideoEditRequest) : VideoCall
  | status (requestId : String) : VideoCall
deriving Repr, DecidableEq

/-- Raw `generate_video` input. -/
structure GenerateVideoInput where
  prompt : String
  model : Option String
  image_url : Option String
  video_url : Option String
  duration : Option Rat
  aspect_ratio : Option String
  resolution : Option String
  wait_for_completion : Option Bool
deriving Repr, DecidableEq

/-- `generate_video` input after `generateVideoSchema.parse`.  `duration`
has no zod default and stays optional. -/
structure GenerateVideoValidated where
  prompt : String
  model : String
  image_url : Option String
  video_url : Option String
  duration : Option Rat
  aspect_ratio : String
  resolution : String
  wait_for_completion : Bool
deriving Repr, DecidableEq

/-- `generateVideoSchema.parse`: duration in 1–15 when present, enums for
aspect ratio (default `16:9`) and resolution (default `720p`),
`wait_for_completion` default `true`, model default `grok-imagine-video`. -/
def generateVideoSchemaParse (i : GenerateVideoInput) :
    Except String GenerateVideoValidated :=
  if !ratInRange 1 15 i.duration then
    Except.error "generate_video: duration must be between 1 and 15"
  else if !optEnumOk aspectRatios i.aspect_ratio then
    Except.error "generate_video: invalid aspect_ratio"
  else if !optEnumOk ["720p", "480p"] i.resolution then
    Except.error "generate_video: invalid resolution"
  else
    Except.ok
      { prompt := i.prompt
        model := i.model.getD "grok-imagine-video"
        image_url := i.image_url
        video_url := i.video_url
        duration := i.duration
        aspect_ratio := i.aspect_ratio.getD "16:9"
        resolution := i.resolution.getD "720p"
        wait_for_completion := i.wait_for_completion.getD true }

/-- The `{success, status:"pending", ...}` object returned when not waiting
for completion. -/
def videoPendingJson (isEdit : Bool) (requestId : String) : Json :=
  Json.obj
    [("success", Json.bool true),
     ("status", Json.str "pending"),
     ("request_id", Json.str requestId),
     ("operation", Json.str (if isEdit then "video_edit" else "video_generation")),
     ("message", Json.str ("Video " ++ (if isEdit then "editing" else "generation") ++
       " started. Use the request_id to check status."))]

/-- The `{success:false, status:"failed", ...}` object for a failed job.
`finalStatus.error || "Video generation failed"`. -/
def videoFailedJson (finalStatus : VideoStatusResponse) (requestId : String) : Json :=
  Json.obj
    [("success", Json.bool false),
     ("status", Json.str "failed"),
     ("error", Json.str (jsOrElse finalStatus.error "Video generation failed")),
     ("request_id", Json.str requestId)]

/-- The `{success:true, status:"completed", ...}` object for a finished
job; `video_url` and `duration` omitted when `undefined`. -/
def videoCompletedJson (isEdit : Bool) (finalStatus : VideoStatusResponse)
    (requestId : String) : Json :=
  Json.obj
    ([("success", Json.bool true), ("status", Json.str "completed")] ++
     optField "video_url" (finalStatus.url.map Json.str) ++
     optField "duration" (finalStatus.duration.map Json.num) ++
     [("request_id", Json.str requestId),
      ("operation", Json.str (if isEdit then "video_edit" else "video_generation"))])

/-- The tail of `handleGenerateVideo` after the start call succeeded:
either report `pending` immediately, or run the polling sub-protocol with
its default budget and normalize the final status. -/
def generateVideoFinish (statusSeq : String → Nat → VideoStatusResponse)
    (v : GenerateVideoValidated) (isEdit : Bool) (startCall : VideoCall)
    (resp : VideoGenerationResponse) : Except String String × List VideoCall :=
  if !v.wait_for_completion then
    (Except.ok (renderJson 0 (videoPendingJson isEdit resp.request_id)), [startCall])
  else
    let t := pollVideoCompletion (statusSeq resp.request_id)
      pollDefaultMaxAttempts pollDefaultIntervalMs
    let fullTrace := startCall :: List.replicate t.polls (VideoCall.status resp.request_id)
    match t.result with
    | Except.error e => (Except.error e, fullTrace)
    | Except.ok finalStatus =>
        if finalStatus.status = some VideoStatus.failed then
          (Except.ok (renderJson 0 (videoFailedJson finalStatus resp.request_id)), fullTrace)
        else
          (Except.ok (renderJson 0 (videoCompletedJson isEdit finalStatus resp.request_id)),
           fullTrace)

/-- The `/videos/edits` body built in the edit branch: `validated.video_url!`
(non-null assertion), no duration passed — the client type has none. -/
def editRequestOf (v : GenerateVideoValidated) : VideoEditRequest :=
  { model := v.model, prompt := v.prompt, video_url := v.video_url.getD "",
    aspect_ratio := some v.aspect_ratio, resolution := some v.resolution }

/-- The `/videos/generations` body built in the generation branch,
`duration` forwarded as supplied (possibly `undefined`). -/
def generationRequestOf (v : GenerateVideoValidated) : VideoGenerationRequest :=
  { model := v.model, prompt := v.prompt, image_url := v.image_url,
    video_url := none, duration := v.duration,
    aspect_ratio := some v.aspect_ratio, resolution := some v.resolution }

/-- Is this trace entry a call to the `/videos/edits` endpoint? -/
def isEditCall : VideoCall → Bool
  | VideoCall.edit _ => true
  | _ => false

/-- Is this trace entry a call to the `/videos/generations` endpoint? -/
def isGenerationCall : VideoCall → Bool
  | VideoCall.generation _ => true
  | _ => false

/-- `handleGenerateVideo`: validate, branch on `!!validated.video_url`
(JavaScript truthiness: present and non-empty) between the edit and the
generation endpoint, then optionally poll for completion.
`statusSeq id i` is the upstream response to the `i`-th status poll for job
`id`. -/
def handleGenerateVideo
    (genOracle : VideoGenerationRequest → Except String VideoGenerationResponse)
    (editOracle : VideoEditRequest → Except String VideoGenerationResponse)
    (statusSeq : String → Nat → VideoStatusResponse)
    (input : GenerateVideoInput) : Except String String × List VideoCall :=
  match generateVideoSchemaParse input with
  | Except.error e => (Except.error e, [])
  | Except.ok v =>
      if truthyStr v.video_url then
        match editOracle (editRequestOf v) with
        | Except.error e => (Except.error e, [VideoCall.edit (editRequestOf v)])
        | Except.ok resp =>
            generateVideoFinish statusSeq v true (VideoCall.edit (editRequestOf v)) resp
      else
        match genOracle (generationRequestOf v) with
        | Except.error e => (Except.error e, [VideoCall.generation (generationRequestOf v)])
        | Except.ok resp =>
            generateVideoFinish statusSeq v false
              (VideoCall.generation (generationRequestOf v)) resp

/-! ## `analyze_image` tool (`src/tools/vision.ts`) and
`XAIClient.analyzeImage` -/

/-- Raw `analyze_image` input. -/
structure VisionInput where
  image_url : String
  prompt : Option String
  detail : Option String
  model : Option String
deriving Repr, DecidableEq

/-- `analyze_image` input after `visionSchema.parse`. -/
structure VisionValidated where
  image_url : String
  prompt : String
  detail : String
  model : String
deriving Repr, DecidableEq

/-- `visionSchema.parse`: `detail` from `{low, high, auto}` (default
`auto`), prompt default `Describe this image in detail.`, model default
`grok-2-vision-1212`. -/
def visionSchemaParse (i : VisionInput) : Except String VisionValidated :=
  if !optEnumOk ["low", "high", "auto"] i.detail then
    Except.error "analyze_image: invalid detail"
  else
    Except.ok
      { image_url := i.image_url
        prompt := i.prompt.getD "Describe this image in detail."
        detail := i.detail.getD "auto"
        model := i.model.getD "grok-2-vision-1212" }

/-- The chat request `XAIClient.analyzeImage` builds: one user message with
a text part and an image part carrying the detail hint. -/
def analyzeImageRequest (imageUrl prompt model detail : String) : ChatCompletionRequest :=
  { model := model
    messages := [{ role := ChatRole.user,
                   content := ChatContent.parts
                     [ContentPart.text prompt,
                      ContentPart.image_url { url := imageUrl, detail := some detail }] }]
    temperature := none, max_tokens := none, stream := none, top_p := none,
    frequency_penalty := none, presence_penalty := none }

/-- `XAIClient.analyzeImage`: one chat completion call;
`choices[0]?.message?.content || "No analysis available"`. -/
def analyzeImage (oracle : ChatCompletionRequest → Except String ChatCompletionResponse)
    (imageUrl prompt model detail : String) :
    Except String String × List ChatCompletionRequest :=
  let req := analyzeImageRequest imageUrl prompt model detail
  match oracle req with
  | Except.error e => (Except.error e, [req])
  | Except.ok resp =>
      (Except.ok (jsOrElse (resp.choices.head?.bind (fun c => c.message.content))
        "No analysis available"), [req])

/-- `handleVision`: validate, call `analyzeImage`, wrap the analysis.  The
source passes `validated.detail` in `analyzeImage`'s third (model)
positional parameter, so the `detail` parameter stays at its declared
default `"auto"`. -/
def handleVision (oracle : ChatCompletionRequest → Except String ChatCompletionResponse)
    (input : VisionInput) : Except String String × List ChatCompletionRequest :=
  match visionSchemaParse input with
  | Except.error e => (Except.error e, [])
  | Except.ok v =>
      let r := analyzeImage oracle v.image_url v.prompt v.detail "auto"
      match r.1 with
      | Except.error e => (Except.error e, r.2)
      | Except.ok analysis =>
          (Except.ok (renderJson 0 (Json.obj
            [("success", Json.bool true),
             ("analysis", Json.str analysis),
             ("image_url", Json.str v.image_url),
             ("prompt", Json.str v.prompt)])), r.2)

/-! ## Live search (`XAIClient.liveSearch` and `src/tools/live-search.ts`)

Two versions of `live-search.ts` appear in the repository snapshot; the one
embedded here is the current one (the other predates the client's
`SearchRequest` shape and does not compile against it): it carries
`web_filters` / `x_filters`, rejects mutually exclusive allow/deny lists
before any call, and folds `max_results` into the query text. -/

/-- `WebSearchFilters` of the client's wire contract. -/
structure WebSearchFilters where
  allowed_domains : Option (List String)
  excluded_domains : Option (List String)
  enable_image_understanding : Option Bool
  user_location_country : Option String
  user_location_city : Option String
  user_location_region : Option String
  user_location_timezone : Option String
deriving Repr, DecidableEq

/-- `XSearchFilters` of the client's wire contract. -/
structure XSearchFilters where
  allowed_x_handles : Option (List String)
  excluded_x_handles : Option (List String)
  from_date : Option String
  to_date : Option String
  enable_image_understanding : Option Bool
  enable_video_understanding : Option Bool
deriving Repr, DecidableEq

/-- Filter payload attached to a search tool entry. -/
inductive SearchToolFilters where
  | web (f : WebSearchFilters) : SearchToolFilters
  | x (f : XSearchFilters) : SearchToolFilters
deriving Repr, DecidableEq

/-- One server-side search tool entry of the `/responses` request. -/
structure SearchTool where
  type : String
  filters : Option SearchToolFilters
deriving Repr, DecidableEq

/-- One input message of the `/responses` request (only string content is
built by `liveSearch`). -/
structure ResponsesMessage where
  role : String
  content : String
deriving Repr, DecidableEq

/-- `ResponsesRequest` as built by `liveSearch`: model pinned to
`grok-4-0709`, one user message, the tools array, `store:false`; the
optional `include` field is never set. -/
structure ResponsesRequest where
  model : String
  input : List ResponsesMessage
  tools : List SearchTool
  store : Bool
deriving Repr, DecidableEq

/-- Keys present in the serialized `/responses` body built by `liveSearch`
(`model`, `input`, `tools`, `store`; `include` is never set and no other
field exists on the request object). -/
def responsesRequestKeys (_ : ResponsesRequest) : List String :=
  ["model", "input", "tools", "store"]

/-- A citation of the search response. -/
structure Citation where
  url : String
  title : Option String
deriving Repr, DecidableEq

/-- One output item of the `/responses` response; `content := none` models
a non-string wire value (mapped to `""` by the extractor). -/
structure ResponsesOutputItem where
  role : String
  content : Option String
deriving Repr, DecidableEq

/-- Per-source server-side tool invocation counters. -/
structure ServerSideToolUsage where
  web_search_calls : Option Rat
  x_search_calls : Option Rat
deriving Repr, DecidableEq

/-- `ResponsesResponse` of POST `/responses` (fields the adapter reads). -/
structure ResponsesResponse where
  id : String
  output : Option (List ResponsesOutputItem)
  citations : Option (List Citation)
  server_side_tool_usage : Option ServerSideToolUsage
deriving Repr, DecidableEq

/-- `SearchRequest`: the argument of `XAIClient.liveSearch`. -/
structure SearchRequest where
  query : String
  sources : Option (List String)
  web_filters : Option WebSearchFilters
  x_filters : Option XSearchFilters
  max_results : Option Rat
deriving Repr, DecidableEq

/-- `SearchResponse`: the normalized result of `XAIClient.liveSearch`. -/
structure SearchResponse where
  content : String
  citations : Option (List Citation)
  tool_usage : Option ServerSideToolUsage
deriving Repr, DecidableEq

/-- The `/responses` request `liveSearch` builds: a `web_search` tool when
`web` is among the sources (default `["web"]`), an `x_search` tool when `x`
is, each carrying its filters when present; the query as the single user
message; `store:false`.  `request.max_results` is read nowhere. -/
def buildLiveSearchRequest (r : SearchRequest) : ResponsesRequest :=
  let sources := r.sources.getD ["web"]
  let webTools : List SearchTool :=
    if sources.contains "web" then
      [{ type := "web_search", filters := r.web_filters.map SearchToolFilters.web }]
    else []
  let xTools : List SearchTool :=
    if sources.contains "x" then
      [{ type := "x_search", filters := r.x_filters.map SearchToolFilters.x }]
    else []
  { model := "grok-4-0709"
    input := [{ role := "user", content := r.query }]
    tools := webTools ++ xTools
    store := false }

/-- `response.output?.map(o => typeof o.content === "string" ? o.content :
"").join("\n") || "No results found"`. -/
def liveSearchContent (r : ResponsesResponse) : String :=
  match r.output with
  | none => "No results found"
  | some items =>
      let joined := String.intercalate "\n" (items.map (fun o => o.content.getD ""))
      if joined = "" then "No results found" else joined

/-- `XAIClient.liveSearch`: build the `/responses` request, send it once,
extract content / citations / tool usage. -/
def liveSearch (oracle : ResponsesRequest → Except String ResponsesResponse)
    (r : SearchRequest) : Except String SearchResponse × List ResponsesRequest :=
  let req := buildLiveSearchRequest r
  match oracle req with
  | Except.error e => (Except.error e, [req])
  | Except.ok resp =>
      (Except.ok { content := liveSearchContent resp, citations := resp.citations,
                   tool_usage := resp.server_side_tool_usage }, [req])

/-- Raw web filters of the `live_search` tool input. -/
structure WebFiltersInput where
  allowed_domains : Option (List String)
  excluded_domains : Option (List String)
  country : Option String
  city : Option String
  region : Option String
  timezone : Option String
deriving Repr, DecidableEq

/-- Raw X filters of the `live_search` tool input. -/
structure XFiltersInput where
  allowed_handles : Option (List String)
  excluded_handles : Option (List String)
  from_date : Option String
  to_date : Option String
  include_images : Option Bool
  include_videos : Option Bool
deriving Repr, DecidableEq

/-- Raw `live_search` input. -/
structure LiveSearchInput where
  query : String
  sources : Option (List String)
  web_filters : Option WebFiltersInput
  x_filters : Option XFiltersInput
  max_results : Option Rat
deriving Repr, DecidableEq

/-- `live_search` input after `liveSearchSchema.parse`. -/
structure LiveSearchValidated where
  query : String
  sources : List String
  web_filters : Option WebFiltersInput
  x_filters : Option XFiltersInput
  max_results : Rat
deriving Repr, DecidableEq

/-- Zod `z.array(...).max(n)` on an optional array: length bound when
present. -/
def optListLenLe (n : Nat) : Option (List String) → Bool
  | some xs => xs.length ≤ n
  | none => true

/-- Zod enum check for the `sources` array elements. -/
def sourcesOk : Option (List String) → Bool
  | some xs => xs.all (fun s => s == "web" || s == "x")
  | none => true

/-- `liveSearchSchema.parse`: sources from `{web, x}` (default `["web"]`),
domain lists of length ≤ 5, handle lists of length ≤ 10, `max_results` in
1–20 (default 10). -/
def liveSearchSchemaParse (i : LiveSearchInput) : Except String LiveSearchValidated :=
  if !sourcesOk i.sources then
    Except.error "live_search: invalid source"
  else if !(match i.web_filters with
            | some wf => optListLenLe 5 wf.allowed_domains &&
                optListLenLe 5 wf.excluded_domains
            | none => true) then
    Except.error "live_search: at most 5 domains"
  else if !(match i.x_filters with
            | some xf => optListLenLe 10 xf.allowed_handles &&
                optListLenLe 10 xf.excluded_handles
            | none => true) then
    Except.error "live_search: at most 10 handles"
  else if !ratInRange 1 20 i.max_results then
    Except.error "live_search: max_results must be between 1 and 20"
  else
    Except.ok
      { query := i.query
        sources := i.sources.getD ["web"]
        web_filters := i.web_filters
        x_filters := i.x_filters
        max_results := i.max_results.getD 10 }

/-- `wf.allowed_domains?.length && wf.excluded_domains?.length`: the
mutually-exclusive web allow/deny condition. -/
def webConflict (v : LiveSearchValidated) : Bool :=
  match v.web_filters with
  | some wf => truthyLen wf.allowed_domains && truthyLen wf.excluded_domains
  | none => false

/-- `xf.allowed_handles?.length && xf.excluded_handles?.length`: the
mutually-exclusive X allow/deny condition. -/
def xConflict (v : LiveSearchValidated) : Bool :=
  match v.x_filters with
  | some xf => truthyLen xf.allowed_handles && truthyLen xf.excluded_handles
  | none => false

/-- Tool-input web filters renamed onto the client's wire shape. -/
def mapWebFilters (wf : WebFiltersInput) : WebSearchFilters :=
  { allowed_domains := wf.allowed_domains
    excluded_domains := wf.excluded_domains
    enable_image_understanding := none
    user_location_country := wf.country
    user_location_city := wf.city
    user_location_region := wf.region
    user_location_timezone := wf.timezone }

/-- Tool-input X filters renamed onto the client's wire shape. -/
def mapXFilters (xf : XFiltersInput) : XSearchFilters :=
  { allowed_x_handles := xf.allowed_handles
    excluded_x_handles := xf.excluded_handles
    from_date := xf.from_date
    to_date := xf.to_date
    enable_image_understanding := xf.include_images
    enable_video_understanding := xf.include_videos }

/-- `validated.max_results ? query + " (provide up to N relevant results)"
: query` (a number is falsy exactly when `0`). -/
def augmentQuery (query : String) (maxResults : Rat) : String :=
  if maxResults ≠ 0 then
    query ++ " (provide up to " ++ jsNumToString maxResults ++ " relevant results)"
  else query

/-- One citation object of the `live_search` tool output. -/
def citationJson (c : Citation) : Json :=
  Json.obj ([("url", Json.str c.url)] ++ optField "title" (c.title.map Json.str))

/-- The tool-usage object of the `live_search` tool output. -/
def toolUsageJson (u : ServerSideToolUsage) : Json :=
  Json.obj (optField "web_search_calls" (u.web_search_calls.map Json.num) ++
            optField "x_search_calls" (u.x_search_calls.map Json.num))

/-- `handleLiveSearch`: validate, reject mutually exclusive allow/deny
lists per source before any upstream call, rename the filters, fold
`max_results` into the query text, call `liveSearch` once, normalize. -/
def handleLiveSearch (oracle : ResponsesRequest → Except String ResponsesResponse)
    (input : LiveSearchInput) : Except String String × List ResponsesRequest :=
  match liveSearchSchemaParse input with
  | Except.error e => (Except.error e, [])
  | Except.ok v =>
      if webConflict v then
        (Except.error "Cannot use both allowed_domains and excluded_domains together", [])
      else if xConflict v then
        (Except.error "Cannot use both allowed_handles and excluded_handles together", [])
      else
        let searchReq : SearchRequest :=
          { query := augmentQuery v.query v.max_results
            sources := some v.sources
            web_filters := v.web_filters.map mapWebFilters
            x_filters := v.x_filters.map mapXFilters
            max_results := none }
        let r := liveSearch oracle searchReq
        match r.1 with
        | Except.error e => (Except.error e, r.2)
        | Except.ok resp =>
            (Except.ok (renderJson 0 (Json.obj
              ([("success", Json.bool true),
                ("query", Json.str v.query),
                ("sources", Json.arr (v.sources.map Json.str)),
                ("content", Json.str resp.content),
                ("citations", Json.arr ((resp.citations.getD []).map citationJson))] ++
               optField "tool_usage" (resp.tool_usage.map toolUsageJson)))), r.2)

/-! ## Helper lemmas -/

/-- Successful `chatSchema.parse` yields exactly the record with defaults
applied. -/
theorem chatSchemaParse_ok_inv (i : ChatInput) (v : ChatValidated)
    (h : chatSchemaParse i = Except.ok v) :
    v = { message := i.message
          model := i.model.getD "grok-3"
          system_prompt := i.system_prompt
          temperature := i.temperature.getD chatDefaultTemperature
          max_tokens := i.max_tokens
          top_p := i.top_p
          frequency_penalty := i.frequency_penalty
          presence_penalty := i.presence_penalty } := by
  unfold chatSchemaParse at h
  repeat' split at h
  all_goals simp_all

/-- Successful `liveSearchSchema.parse` yields exactly the record with
defaults applied, and the `max_results` range guard passed. -/
theorem liveSearchSchemaParse_ok_inv (i : LiveSearchInput) (v : LiveSearchValidated)
    (h : liveSearchSchemaParse i = Except.ok v) :
    v = { query := i.query
          sources := i.sources.getD ["web"]
          web_filters := i.web_filters
          x_filters := i.x_filters
          max_results := i.max_results.getD 10 } ∧
    ratInRange 1 20 i.max_results = true := by
  unfold liveSearchSchemaParse at h
  repeat' split at h
  all_goals simp_all

/-- After a successful parse, `max_results` is at least 1 (so truthy). -/
theorem liveSearch_max_results_pos (i : LiveSearchInput) (v : LiveSearchValidated)
    (h : liveSearchSchemaParse i = Except.ok v) : v.max_results ≠ 0 := by
  obtain ⟨hv, hr⟩ := liveSearchSchemaParse_ok_inv i v h
  subst hv
  cases hm : i.max_results with
  | none => simp [hm]
  | some q =>
      simp only [hm, Option.getD_some]
      simp [ratInRange, hm] at hr
      intro h0
      rw [h0] at hr
      exact absurd hr.1 (by norm_num)

/-- One loop iteration that continues: neither terminal status nor truthy
URL, so poll, sleep, recurse. -/
theorem pollLoop_step_continue (g : Nat → VideoStatusResponse) (iv i fuel : Nat)
    (h1 : (g i).status ≠ some VideoStatus.completed)
    (h2 : (g i).status ≠ some VideoStatus.failed)
    (hu : truthyStr (g i).url = false) :
    pollLoop g iv i (fuel + 1) =
      { result := (pollLoop g iv (i + 1) fuel).result
        polls := (pollLoop g iv (i + 1) fuel).polls + 1
        waits := iv :: (pollLoop g iv (i + 1) fuel).waits } := by
  simp [pollLoop, h1, h2, hu]

/-- One loop iteration that returns on an explicit terminal status. -/
theorem pollLoop_step_done (g : Nat → VideoStatusResponse) (iv i fuel : Nat)
    (h : (g i).status = some VideoStatus.completed ∨ (g i).status = some VideoStatus.failed) :
    pollLoop g iv i (fuel + 1) = { result := Except.ok (g i), polls := 1, waits := [] } := by
  simp [pollLoop, h]

/-- One loop iteration that returns on a truthy URL, forcing the status to
`completed`. -/
theorem pollLoop_step_url (g : Nat → VideoStatusResponse) (iv i fuel : Nat)
    (h1 : (g i).status ≠ some VideoStatus.completed)
    (h2 : (g i).status ≠ some VideoStatus.failed)
    (hu : truthyStr (g i).url = true) :
    pollLoop g iv i (fuel + 1) =
      { result := Except.ok { g i with status := some VideoStatus.completed }
        polls := 1, waits := [] } := by
  simp [pollLoop, h1, h2, hu]

/-- Never-terminating status sequences exhaust the fuel: one poll and one
sleep per attempt, then the timeout error. -/
theorem pollLoop_all_continue (g : Nat → VideoStatusResponse) (iv : Nat)
    (hp : ∀ j, (g j).status = some VideoStatus.processing ∧ truthyStr (g j).url = false)
    (i fuel : Nat) :
    pollLoop g iv i fuel =
      { result := Except.error "Video generation timed out"
        polls := fuel
        waits := List.replicate fuel iv } := by
  induction fuel generalizing i with
  | zero => rfl
  | succ n ih =>
      rw [pollLoop_step_continue g iv i n (by simp [(hp i).1]) (by simp [(hp i).1]) (hp i).2]
      simp [ih, List.replicate_succ]

/-- The loop never polls more often than its fuel allows. -/
theorem pollLoop_polls_le (g : Nat → VideoStatusResponse) (iv : Nat) (i fuel : Nat) :
    (pollLoop g iv i fuel).polls ≤ fuel := by
  induction fuel generalizing i with
  | zero => simp [pollLoop]
  | succ n ih =>
      by_cases h : (g i).status = some VideoStatus.completed ∨ (g i).status = some VideoStatus.failed
      · rw [pollLoop_step_done g iv i n h]
        simp
      · push_neg at h
        by_cases hu : truthyStr (g i).url = true
        · rw [pollLoop_step_url g iv i n h.1 h.2 hu]
          simp
        · rw [pollLoop_step_continue g iv i n h.1 h.2 (by simpa using hu)]
          have := ih (i + 1)
          simp only []
          omega

/-! ## Claims -/

/-- C1: For every tool invocation delivered to the dispatcher — including
one naming an unregistered tool — exactly one `ToolResponse` is returned
(the dispatcher is a total function): a handler exception with message `m`
becomes the result `JSON.stringify({success:false, error:m}, null, 2)` with
the out-of-band `isError` flag set, an unregistered name becomes the same
envelope around `Unknown tool: <name>`, and a handler success is returned
verbatim without the flag; no path escapes or terminates the process. -/
theorem C1_dispatch_exactly_one_result
    (handlers : ToolName → Except String String) (name : String) :
    (parseToolName name = none →
      dispatchToolCall handlers name =
        { text := errorEnvelope ("Unknown tool: " ++ name), isError := true }) ∧
    (∀ t, parseToolName name = some t →
      (∀ r, handlers t = Except.ok r →
        dispatchToolCall handlers name = { text := r, isError := false }) ∧
      (∀ m, handlers t = Except.error m →
        dispatchToolCall handlers name = { text := errorEnvelope m, isError := true })) := by
  refine ⟨fun h => by simp [dispatchToolCall, h], fun t ht => ⟨fun r hr => ?_, fun m hm => ?_⟩⟩
  · simp [dispatchToolCall, ht, hr]
  · simp [dispatchToolCall, ht, hm]

/-- C1 witness: concrete unregistered name and concrete throwing handler. -/
theorem C1_dispatch_exactly_one_result_witness :
    dispatchToolCall (fun _ => Except.error "boom") "bogus_tool" =
      { text := errorEnvelope ("Unknown tool: " ++ "bogus_tool"), isError := true } ∧
    dispatchToolCall (fun _ => Except.error "boom") "chat" =
      { text := errorEnvelope "boom", isError := true } :=
  ⟨(C1_dispatch_exactly_one_result (fun _ => Except.error "boom") "bogus_tool").1 (by decide),
   ((C1_dispatch_exactly_one_result (fun _ => Except.error "boom") "chat").2
      ToolName.chat (by decide)).2 "boom" rfl⟩

/-- C7: On any non-2xx upstream HTTP response the client operation fails
with the error message `xAI API error (<status>): <body>` — the numeric
status code and the raw body embedded verbatim — after exactly one HTTP
call (no retries, no status-specific handling); and when that error reaches
the dispatch boundary it surfaces as the `success:false` envelope carrying
the same message, with the error flag set, rather than a crash. -/
theorem C7_upstream_error_surfaced
    (r : HttpResponse) (hbad : respOk r = false)
    (handlers : ToolName → Except String String) (t : ToolName) (name : String)
    (hname : parseToolName name = some t)
    (hprop : handlers t = Except.error ("xAI API error (" ++ toString r.status ++ "): " ++ r.body)) :
    request r =
      (Except.error ("xAI API error (" ++ toString r.status ++ "): " ++ r.body), 1) ∧
    (∃ pre post, requestResult r = Except.error (pre ++ toString r.status ++ post)) ∧
    dispatchToolCall handlers name =
      { text := errorEnvelope ("xAI API error (" ++ toString r.status ++ "): " ++ r.body)
        isError := true } := by
  refine ⟨?_, ?_, ?_⟩
  · simp [request, requestResult, hbad]
  · exact ⟨"xAI API error (", "): " ++ r.body,
      by simp [requestResult, hbad]; rw [String.append_assoc]⟩
  · simp [dispatchToolCall, hname, hprop]

/-- C7 witness: a concrete 404 response surfacing through the `chat` tool. -/
theorem C7_upstream_error_surfaced_witness :
    request { status := 404, body := "Not found" } =
      (Except.error ("xAI API error (" ++ toString (404 : Nat) ++ "): " ++ "Not found"), 1) ∧
    (∃ pre post, requestResult { status := 404, body := "Not found" } =
      Except.error (pre ++ toString (404 : Nat) ++ post)) ∧
    dispatchToolCall
        (fun _ => Except.error ("xAI API error (" ++ toString (404 : Nat) ++ "): " ++ "Not found"))
        "chat" =
      { text := errorEnvelope ("xAI API error (" ++ toString (404 : Nat) ++ "): " ++ "Not found")
        isError := true } :=
  C7_upstream_error_surfaced { status := 404, body := "Not found" } (by decide)
    (fun _ => Except.error ("xAI API error (" ++ toString (404 : Nat) ++ "): " ++ "Not found"))
    ToolName.chat "chat" (by decide) rfl

/-- C3: `pollVideoCompletion` polls at a fixed interval with a bounded
attempt budget (defaults 60 attempts / 5000 ms): on the status sequence
`[processing, processing, completed]` exactly 3 polls occur (two fixed-length
sleeps) and the third response is returned as is; on an all-`processing`
sequence the default budget is exhausted after exactly 60 polls, the call
fails with the timeout error, and no further polls occur (the poll count
never exceeds the budget). -/
theorem C3_poll_bounded_and_exact
    (g gP : Nat → VideoStatusResponse) (iv maxAttempts : Nat)
    (hma : 3 ≤ maxAttempts)
    (h0 : (g 0).status = some VideoStatus.processing) (u0 : truthyStr (g 0).url = false)
    (h1 : (g 1).status = some VideoStatus.processing) (u1 : truthyStr (g 1).url = false)
    (h2 : (g 2).status = some VideoStatus.completed)
    (hp : ∀ j, (gP j).status = some VideoStatus.processing ∧ truthyStr (gP j).url = false) :
    pollVideoCompletion g maxAttempts iv =
      { result := Except.ok (g 2), polls := 3, waits := [iv, iv] } ∧
    pollVideoCompletion gP pollDefaultMaxAttempts iv =
      { result := Except.error "Video generation timed out"
        polls := pollDefaultMaxAttempts
        waits := List.replicate pollDefaultMaxAttempts iv } ∧
    pollDefaultMaxAttempts = 60 ∧ pollDefaultIntervalMs = 5000 ∧
    (∀ (h : Nat → VideoStatusResponse) (m : Nat),
      (pollVideoCompletion h m iv).polls ≤ m) := by
  refine ⟨?_, ?_, rfl, rfl, fun h m => pollLoop_polls_le h iv 0 m⟩
  · obtain ⟨k, rfl⟩ : ∃ k, maxAttempts = k + 1 + 1 + 1 := ⟨maxAttempts - 3, by omega⟩
    rw [pollVideoCompletion,
      pollLoop_step_continue g iv 0 (k + 1 + 1) (by simp [h0]) (by simp [h0]) u0]
    norm_num
    rw [pollLoop_step_continue g iv 1 (k + 1) (by simp [h1]) (by simp [h1]) u1]
    norm_num
    rw [pollLoop_step_done g iv 2 k (Or.inl h2)]
    simp
  · exact pollLoop_all_continue gP iv hp 0 pollDefaultMaxAttempts

/-- C3 witness: the concrete sequence `[processing, processing, completed]`
under the default budget, and an all-`processing` sequence. -/
theorem C3_poll_bounded_and_exact_witness :
    pollVideoCompletion
        (fun i => if i < 2 then
          { url := none, duration := none, status := some VideoStatus.processing, error := none }
         else
          { url := some "https://storage.example/video.mp4", duration := some 5,
            status := some VideoStatus.completed, error := none })
        60 5000 =
      { result := Except.ok
          { url := some "https://storage.example/video.mp4",
            duration := some 5, status := some VideoStatus.completed, error := none }
        polls := 3
        waits := [5000, 5000] } ∧
    pollVideoCompletion
        (fun _ =>
          { url := none, duration := none, status := some VideoStatus.processing, error := none })
        pollDefaultMaxAttempts 5000 =
      { result := Except.error "Video generation timed out"
        polls := pollDefaultMaxAttempts
        waits := List.replicate pollDefaultMaxAttempts 5000 } := by
  have h := C3_poll_bounded_and_exact
    (fun i => if i < 2 then
      { url := none, duration := none, status := some VideoStatus.processing, error := none }
     else
      { url := some "https://storage.example/video.mp4", duration := some 5,
        status := some VideoStatus.completed, error := none })
    (fun _ =>
      { url := none, duration := none, status := some VideoStatus.processing, error := none })
    5000 60 (by norm_num) rfl rfl rfl rfl rfl (fun j => ⟨rfl, rfl⟩)
  exact ⟨h.1, h.2.1⟩

/-- C8 counterexample: a status response that *contains* a result URL field
(`url: ""`) and no terminal status does NOT terminate the polling loop —
JavaScript truthiness makes `if (status.url)` false for the empty string —
so the loop keeps polling until timeout instead of returning the response
with status forced to `completed`, refuting the claim as stated. -/
theorem C8_url_presence_counterexample :
    ({ url := some "", duration := none, status := none, error := none }
        : VideoStatusResponse).status ≠ some VideoStatus.completed ∧
    ({ url := some "", duration := none, status := none, error := none }
        : VideoStatusResponse).status ≠ some VideoStatus.failed ∧
    ({ url := some "", duration := none, status := none, error := none }
        : VideoStatusResponse).url = some "" ∧
    pollVideoCompletion
        (fun _ => { url := some "", duration := none, status := none, error := none }) 2 7 =
      { result := Except.error "Video generation timed out", polls := 2, waits := [7, 7] } ∧
    (pollVideoCompletion
        (fun _ => { url := some "", duration := none, status := none, error := none }) 2 7).result ≠
      Except.ok { url := some "", duration := none,
                  status := some VideoStatus.completed, error := none } := by
  have hcomp : pollVideoCompletion
      (fun _ => { url := some "", duration := none, status := none, error := none }) 2 7 =
      { result := Except.error "Video generation timed out", polls := 2, waits := [7, 7] } := rfl
  refine ⟨by simp, by simp, rfl, hcomp, ?_⟩
  rw [hcomp]
  simp

/-- C8 amended: during polling, a status response whose status is neither
`completed` nor `failed` but whose result URL is present and **non-empty**
makes the loop terminate immediately (that poll is the last one, no
further sleeps) returning the response with its status forced to
`completed` — also when the explicit status field is absent entirely. -/
theorem C8_nonempty_url_implicit_completion (g : Nat → VideoStatusResponse) (iv : Nat) :
    (∀ i fuel, (g i).status ≠ some VideoStatus.completed →
      (g i).status ≠ some VideoStatus.failed →
      ∀ u, (g i).url = some u → u ≠ "" →
      pollLoop g iv i (fuel + 1) =
        { result := Except.ok { g i with status := some VideoStatus.completed }
          polls := 1, waits := [] }) ∧
    (∀ ma, 1 ≤ ma → (g 0).status ≠ some VideoStatus.completed →
      (g 0).status ≠ some VideoStatus.failed →
      ∀ u, (g 0).url = some u → u ≠ "" →
      pollVideoCompletion g ma iv =
        { result := Except.ok { g 0 with status := some VideoStatus.completed }
          polls := 1, waits := [] }) := by
  have step : ∀ i fuel, (g i).status ≠ some VideoStatus.completed →
      (g i).status ≠ some VideoStatus.failed →
      ∀ u, (g i).url = some u → u ≠ "" →
      pollLoop g iv i (fuel + 1) =
        { result := Except.ok { g i with status := some VideoStatus.completed }
          polls := 1, waits := [] } := by
    intro i fuel h1 h2 u hu hne
    exact pollLoop_step_url g iv i fuel h1 h2 (by simp [truthyStr, hu, hne])
  refine ⟨step, fun ma hma h1 h2 u hu hne => ?_⟩
  obtain ⟨k, rfl⟩ : ∃ k, ma = k + 1 := ⟨ma - 1, by omega⟩
  exact step 0 k h1 h2 u hu hne

/-- C8 amended witness: a concrete response with a non-empty URL and no
status field terminates the default-budget poll after exactly one poll. -/
theorem C8_nonempty_url_implicit_completion_witness :
    pollVideoCompletion
        (fun _ => { url := some "https://storage.example/v.mp4", duration := none,
                    status := none, error := none }) 60 5000 =
      { result := Except.ok
          { url := some "https://storage.example/v.mp4", duration := none,
            status := some VideoStatus.completed, error := none }
        polls := 1
        waits := [] } :=
  (C8_nonempty_url_implicit_completion
      (fun _ => { url := some "https://storage.example/v.mp4", duration := none,
                  status := none, error := none }) 5000).2
    60 (by norm_num) (by simp) (by simp) "https://storage.example/v.mp4" rfl (by decide)

/-- C2: For every tool, any raw input whose declared schema constraints are
violated makes the handler fail during `schema.parse` with zero upstream
calls (the returned trace of HTTP requests is empty); concretely, image
count `n=11` (outside 1–10), `temperature=3` (outside 0–2), video
`duration=16` (outside 1–15), search `max_results=21` (outside 1–20) and a
vision `detail` outside its enum all fail validation. -/
theorem C2_validation_before_network :
    (∀ oracle input e, chatSchemaParse input = Except.error e →
      handleChat oracle input = (Except.error e, [])) ∧
    (∀ oracle input e, generateImageSchemaParse input = Except.error e →
      handleGenerateImage oracle input = (Except.error e, [])) ∧
    (∀ genOracle editOracle statusSeq input e,
      generateVideoSchemaParse input = Except.error e →
      handleGenerateVideo genOracle editOracle statusSeq input = (Except.error e, [])) ∧
    (∀ oracle input e, visionSchemaParse input = Except.error e →
      handleVision oracle input = (Except.error e, [])) ∧
    (∀ oracle input e, liveSearchSchemaParse input = Except.error e →
      handleLiveSearch oracle input = (Except.error e, [])) ∧
    chatSchemaParse
        { message := "hi", model := none, system_prompt := none,
          temperature := some 3, max_tokens := none, top_p := none,
          frequency_penalty := none, presence_penalty := none } =
      Except.error "chat: temperature must be between 0 and 2" ∧
    generateImageSchemaParse
        { prompt := "p", n := some 11, model := none,
          aspect_ratio := none, response_format := none } =
      Except.error "generate_image: n must be between 1 and 10" ∧
    generateVideoSchemaParse
        { prompt := "p", model := none, image_url := none,
          video_url := none, duration := some 16, aspect_ratio := none,
          resolution := none, wait_for_completion := none } =
      Except.error "generate_video: duration must be between 1 and 15" ∧
    liveSearchSchemaParse
        { query := "q", sources := none, web_filters := none,
          x_filters := none, max_results := some 21 } =
      Except.error "live_search: max_results must be between 1 and 20" ∧
    visionSchemaParse
        { image_url := "https://example.com/a.png", prompt := none,
          detail := some "medium", model := none } =
      Except.error "analyze_image: invalid detail" := by
  refine ⟨?_, ?_, ?_, ?_, ?_, ?_, ?_, ?_, ?_, ?_⟩
  · intro oracle input e h
    simp [handleChat, h]
  · intro oracle input e h
    simp [handleGenerateImage, h]
  · intro genOracle editOracle statusSeq input e h
    simp [handleGenerateVideo, h]
  · intro oracle input e h
    simp [handleVision, h]
  · intro oracle input e h
    simp [handleLiveSearch, h]
  · simp [chatSchemaParse, ratInRange]
    norm_num
  · simp [generateImageSchemaParse, ratInRange]
    norm_num
  · simp [generateVideoSchemaParse, ratInRange]
    norm_num
  · simp [liveSearchSchemaParse, ratInRange, sourcesOk]
    norm_num
  · simp [visionSchemaParse, optEnumOk]

/-- C2 witness: each handler run on its concrete violating input returns
the validation error with an empty upstream-call trace. -/
theorem C2_validation_before_network_witness :
    handleChat (fun _ => Except.error "unreachable")
      { message := "hi", model := none, system_prompt := none,
        temperature := some 3, max_tokens := none, top_p := none,
        frequency_penalty := none, presence_penalty := none } =
      (Except.error "chat: temperature must be between 0 and 2", []) ∧
    handleGenerateImage (fun _ => Except.error "unreachable")
      { prompt := "p", n := some 11, model := none,
        aspect_ratio := none, response_format := none } =
      (Except.error "generate_image: n must be between 1 and 10", []) ∧
    handleGenerateVideo (fun _ => Except.error "unreachable")
      (fun _ => Except.error "unreachable")
      (fun _ _ => { url := none, duration := none, status := none, error := none })
      { prompt := "p", model := none, image_url := none,
        video_url := none, duration := some 16, aspect_ratio := none,
        resolution := none, wait_for_completion := none } =
      (Except.error "generate_video: duration must be between 1 and 15", []) ∧
    handleLiveSearch (fun _ => Except.error "unreachable")
      { query := "q", sources := none, web_filters := none,
        x_filters := none, max_results := some 21 } =
      (Except.error "live_search: max_results must be between 1 and 20", []) ∧
    handleVision (fun _ => Except.error "unreachable")
      { image_url := "https://example.com/a.png", prompt := none,
        detail := some "medium", model := none } =
      (Except.error "analyze_image: invalid detail", []) := by
  have h := C2_validation_before_network
  exact ⟨h.1 _ _ _ h.2.2.2.2.2.1,
         h.2.1 _ _ _ h.2.2.2.2.2.2.1,
         h.2.2.1 _ _ _ _ _ h.2.2.2.2.2.2.2.1,
         h.2.2.2.2.1 _ _ _ h.2.2.2.2.2.2.2.2.1,
         h.2.2.2.1 _ _ _ h.2.2.2.2.2.2.2.2.2⟩

/-- C4: A `live_search` invocation whose web filters carry both a non-empty
`allowed_domains` and a non-empty `excluded_domains` list is rejected with
an error before any upstream request is made (empty trace), regardless of
query content; likewise for the X handle allow/deny lists. -/
theorem C4_mutually_exclusive_lists_rejected
    (oracle : ResponsesRequest → Except String ResponsesResponse) (input : LiveSearchInput) :
    (∀ wf a b, input.web_filters = some wf → wf.allowed_domains = some a →
      wf.excluded_domains = some b → a ≠ [] → b ≠ [] →
      ∃ e, handleLiveSearch oracle input = (Except.error e, [])) ∧
    (∀ xf a b, input.x_filters = some xf → xf.allowed_handles = some a →
      xf.excluded_handles = some b → a ≠ [] → b ≠ [] →
      ∃ e, handleLiveSearch oracle input = (Except.error e, [])) := by
  constructor
  · intro wf a b hwf ha hb hane hbne
    cases hparse : liveSearchSchemaParse input with
    | error e => exact ⟨e, by simp [handleLiveSearch, hparse]⟩
    | ok v =>
        have hv := (liveSearchSchemaParse_ok_inv input v hparse).1
        have hw : webConflict v = true := by
          subst hv
          simp [webConflict, hwf, ha, hb, truthyLen, hane, hbne]
        exact ⟨"Cannot use both allowed_domains and excluded_domains together",
          by simp [handleLiveSearch, hparse, hw]⟩
  · intro xf a b hxf ha hb hane hbne
    cases hparse : liveSearchSchemaParse input with
    | error e => exact ⟨e, by simp [handleLiveSearch, hparse]⟩
    | ok v =>
        have hv := (liveSearchSchemaParse_ok_inv input v hparse).1
        have hx : xConflict v = true := by
          subst hv
          simp [xConflict, hxf, ha, hb, truthyLen, hane, hbne]
        by_cases hw : webConflict v = true
        · exact ⟨"Cannot use both allowed_domains and excluded_domains together",
            by simp [handleLiveSearch, hparse, hw]⟩
        · exact ⟨"Cannot use both allowed_handles and excluded_handles together",
            by simp [handleLiveSearch, hparse, hw, hx]⟩

/-- C4 witness: concrete conflicting web domain lists and, separately,
concrete conflicting X handle lists, each rejected with an empty trace. -/
theorem C4_mutually_exclusive_lists_rejected_witness :
    (∃ e, handleLiveSearch (fun _ => Except.error "unreachable")
      { query := "anything at all", sources := none,
        web_filters := some
          { allowed_domains := some ["a.com"],
            excluded_domains := some ["b.com"], country := none, city := none,
            region := none, timezone := none },
        x_filters := none, max_results := none } = (Except.error e, [])) ∧
    (∃ e, handleLiveSearch (fun _ => Except.error "unreachable")
      { query := "anything at all", sources := none, web_filters := none,
        x_filters := some
          { allowed_handles := some ["h1"],
            excluded_handles := some ["h2"], from_date := none, to_date := none,
            include_images := none, include_videos := none },
        max_results := none } = (Except.error e, [])) :=
  ⟨(C4_mutually_exclusive_lists_rejected (fun _ => Except.error "unreachable")
      { query := "anything at all", sources := none,
        web_filters := some
          { allowed_domains := some ["a.com"],
            excluded_domains := some ["b.com"], country := none, city := none,
            region := none, timezone := none },
        x_filters := none, max_results := none }).1
    { allowed_domains := some ["a.com"], excluded_domains := some ["b.com"],
      country := none, city := none, region := none, timezone := none }
    ["a.com"] ["b.com"] rfl rfl rfl (by simp) (by simp),
   (C4_mutually_exclusive_lists_rejected (fun _ => Except.error "unreachable")
      { query := "anything at all", sources := none, web_filters := none,
        x_filters := some
          { allowed_handles := some ["h1"],
            excluded_handles := some ["h2"], from_date := none, to_date := none,
            include_images := none, include_videos := none },
        max_results := none }).2
    { allowed_handles := some ["h1"], excluded_handles := some ["h2"],
      from_date := none, to_date := none, include_images := none,
      include_videos := none }
    ["h1"] ["h2"] rfl rfl rfl (by simp) (by simp)⟩

/-- Filtering a replicated non-matching call yields nothing. -/
theorem filter_replicate_false (p : VideoCall → Bool) (c : VideoCall)
    (h : p c = false) (n : Nat) : (List.replicate n c).filter p = [] := by
  induction n with
  | zero => rfl
  | succ k ih => simp [List.replicate_succ, List.filter_cons, h, ih]

/-- The trace of `generateVideoFinish` is the start call followed only by
status polls, so its generation/edit calls are exactly the start call's. -/
theorem generateVideoFinish_trace (statusSeq : String → Nat → VideoStatusResponse)
    (v : GenerateVideoValidated) (isEdit : Bool) (startCall : VideoCall)
    (resp : VideoGenerationResponse) (p : VideoCall → Bool)
    (hp : ∀ id, p (VideoCall.status id) = false) :
    (generateVideoFinish statusSeq v isEdit startCall resp).2.filter p =
      [startCall].filter p := by
  unfold generateVideoFinish
  by_cases hw : v.wait_for_completion
  · simp only [hw, Bool.not_true, Bool.false_eq_true, if_false]
    set t := pollVideoCompletion (statusSeq resp.request_id)
      pollDefaultMaxAttempts pollDefaultIntervalMs with ht
    match hres : t.result with
    | Except.error e =>
        simp [hres, List.filter_cons, filter_replicate_false p _ (hp resp.request_id)]
    | Except.ok finalStatus =>
        by_cases hf : finalStatus.status = some VideoStatus.failed <;>
          simp [hres, hf, List.filter_cons,
            filter_replicate_false p _ (hp resp.request_id)]
  · simp [hw]

/-- C5 counterexample: the input supplies `video_url` (as the empty string)
and no duration.  The claim requires the edit endpoint; the handler's
JavaScript truthiness test `!!validated.video_url` is false for `""`, so it
calls the generation endpoint instead — and that generation body carries no
`duration` field either, refuting "with the duration field included" for
duration-less generation calls. -/
theorem C5_endpoint_branch_counterexample :
    ({ prompt := "p", model := none, image_url := none, video_url := some "",
       duration := none, aspect_ratio := none, resolution := none,
       wait_for_completion := some false } : GenerateVideoInput).video_url = some "" ∧
    (handleGenerateVideo (fun _ => Except.ok { request_id := "req-1" })
      (fun _ => Except.ok { request_id := "req-1" })
      (fun _ _ => { url := none, duration := none, status := none, error := none })
      { prompt := "p", model := none, image_url := none, video_url := some "",
        duration := none, aspect_ratio := none, resolution := none,
        wait_for_completion := some false }).2 =
      [VideoCall.generation
        { model := "grok-imagine-video", prompt := "p", image_url := none,
          video_url := none, duration := none, aspect_ratio := some "16:9",
          resolution := some "720p" }] ∧
    "duration" ∉ videoGenerationRequestKeys
      { model := "grok-imagine-video", prompt := "p", image_url := none,
        video_url := none, duration := none, aspect_ratio := some "16:9",
        resolution := some "720p" } := by
  refine ⟨rfl, rfl, ?_⟩
  simp [videoGenerationRequestKeys]

/-- C5 amended: when a **non-empty** `video_url` is supplied the handler
calls exactly the `/videos/edits` endpoint (no generation call) and the
edit body has no duration field; when `video_url` is absent or empty it
calls exactly the `/videos/generations` endpoint (no edit call), whose body
carries a `duration` field exactly when a duration was supplied; the two
endpoints are mutually exclusive per call. -/
theorem C5_endpoint_branch_amended
    (genOracle : VideoGenerationRequest → Except String VideoGenerationResponse)
    (editOracle : VideoEditRequest → Except String VideoGenerationResponse)
    (statusSeq : String → Nat → VideoStatusResponse)
    (input : GenerateVideoInput) (v : GenerateVideoValidated)
    (hv : generateVideoSchemaParse input = Except.ok v) :
    (truthyStr v.video_url = true →
      (handleGenerateVideo genOracle editOracle statusSeq input).2.filter isEditCall =
        [VideoCall.edit (editRequestOf v)] ∧
      (handleGenerateVideo genOracle editOracle statusSeq input).2.filter isGenerationCall =
        [] ∧
      "duration" ∉ videoEditRequestKeys (editRequestOf v)) ∧
    (truthyStr v.video_url = false →
      (handleGenerateVideo genOracle editOracle statusSeq input).2.filter isGenerationCall =
        [VideoCall.generation (generationRequestOf v)] ∧
      (handleGenerateVideo genOracle editOracle statusSeq input).2.filter isEditCall = [] ∧
      ("duration" ∈ videoGenerationRequestKeys (generationRequestOf v) ↔
        v.duration.isSome)) := by
  constructor
  · intro htrue
    refine ⟨?_, ?_, by simp [videoEditRequestKeys]⟩ <;>
    · simp only [handleGenerateVideo, hv, htrue, if_true]
      match hres : editOracle (editRequestOf v) with
      | Except.error e => simp [List.filter_cons, isEditCall, isGenerationCall]
      | Except.ok resp =>
          rw [generateVideoFinish_trace statusSeq v true _ resp _ (fun _ => rfl)]
          simp [List.filter_cons, isEditCall, isGenerationCall]
  · intro hfalse
    refine ⟨?_, ?_, ?_⟩
    · simp only [handleGenerateVideo, hv, hfalse, Bool.false_eq_true, if_false]
      match hres : genOracle (generationRequestOf v) with
      | Except.error e => simp [List.filter_cons, isGenerationCall]
      | Except.ok resp =>
          rw [generateVideoFinish_trace statusSeq v false _ resp _ (fun _ => rfl)]
          simp [List.filter_cons, isGenerationCall]
    · simp only [handleGenerateVideo, hv, hfalse, Bool.false_eq_true, if_false]
      match hres : genOracle (generationRequestOf v) with
      | Except.error e => simp [List.filter_cons, isEditCall]
      | Except.ok resp =>
          rw [generateVideoFinish_trace statusSeq v false _ resp _ (fun _ => rfl)]
          simp [List.filter_cons, isEditCall]
    · cases hd : v.duration <;> simp [videoGenerationRequestKeys, generationRequestOf, hd]

/-- C5 amended witness: a non-empty `video_url` drives the edit endpoint
only; an absent `video_url` with a supplied duration drives the generation
endpoint only, duration included. -/
theorem C5_endpoint_branch_amended_witness :
    ((handleGenerateVideo (fun _ => Except.ok { request_id := "req-1" })
        (fun _ => Except.ok { request_id := "req-1" })
        (fun _ _ => { url := none, duration := none, status := none, error := none })
        { prompt := "p", model := none, image_url := none,
          video_url := some "https://example.com/in.mp4",
          duration := none, aspect_ratio := none, resolution := none,
          wait_for_completion := some false }).2.filter isEditCall =
      [VideoCall.edit
        { model := "grok-imagine-video", prompt := "p",
          video_url := "https://example.com/in.mp4",
          aspect_ratio := some "16:9", resolution := some "720p" }] ∧
     (handleGenerateVideo (fun _ => Except.ok { request_id := "req-1" })
        (fun _ => Except.ok { request_id := "req-1" })
        (fun _ _ => { url := none, duration := none, status := none, error := none })
        { prompt := "p", model := none, image_url := none,
          video_url := some "https://example.com/in.mp4",
          duration := none, aspect_ratio := none, resolution := none,
          wait_for_completion := some false }).2.filter isGenerationCall = [] ∧
     "duration" ∉ videoEditRequestKeys
       { model := "grok-imagine-video", prompt := "p",
         video_url := "https://example.com/in.mp4",
         aspect_ratio := some "16:9", resolution := some "720p" }) ∧
    ((handleGenerateVideo (fun _ => Except.ok { request_id := "req-1" })
        (fun _ => Except.ok { request_id := "req-1" })
        (fun _ _ => { url := none, duration := none, status := none, error := none })
        { prompt := "p", model := none, image_url := none, video_url := none,
          duration := some 5, aspect_ratio := none, resolution := none,
          wait_for_completion := some false }).2.filter isGenerationCall =
      [VideoCall.generation
        { model := "grok-imagine-video", prompt := "p", image_url := none,
          video_url := none, duration := some 5, aspect_ratio := some "16:9",
          resolution := some "720p" }] ∧
     (handleGenerateVideo (fun _ => Except.ok { request_id := "req-1" })
        (fun _ => Except.ok { request_id := "req-1" })
        (fun _ _ => { url := none, duration := none, status := none, error := none })
        { prompt := "p", model := none, image_url := none, video_url := none,
          duration := some 5, aspect_ratio := none, resolution := none,
          wait_for_completion := some false }).2.filter isEditCall = [] ∧
     ("duration" ∈ videoGenerationRequestKeys
        { model := "grok-imagine-video", prompt := "p", image_url := none,
          video_url := none, duration := some 5, aspect_ratio := some "16:9",
          resolution := some "720p" } ↔
       (some (5 : Rat)).isSome)) :=
  ⟨(C5_endpoint_branch_amended (fun _ => Except.ok { request_id := "req-1" })
      (fun _ => Except.ok { request_id := "req-1" })
      (fun _ _ => { url := none, duration := none, status := none, error := none })
      { prompt := "p", model := none, image_url := none,
        video_url := some "https://example.com/in.mp4",
        duration := none, aspect_ratio := none, resolution := none,
        wait_for_completion := some false } _ rfl).1 (by decide),
   (C5_endpoint_branch_amended (fun _ => Except.ok { request_id := "req-1" })
      (fun _ => Except.ok { request_id := "req-1" })
      (fun _ _ => { url := none, duration := none, status := none, error := none })
      { prompt := "p", model := none, image_url := none, video_url := none,
        duration := some 5, aspect_ratio := none, resolution := none,
        wait_for_completion := some false } _ rfl).2 rfl⟩

/-- C6 counterexample: a chat input that supplies a `system_prompt` (the
empty string) produces an upstream message list with exactly ONE entry —
just the user message — because `if (validated.system_prompt)` is false for
`""`; the claim's "exactly two entries" fails. -/
theorem C6_message_order_counterexample :
    ({ message := "hi", model := none, system_prompt := some "",
       temperature := none, max_tokens := none, top_p := none,
       frequency_penalty := none, presence_penalty := none }
       : ChatInput).system_prompt = some "" ∧
    ((handleChat (fun _ => Except.error "stop")
      { message := "hi", model := none, system_prompt := some "",
        temperature := none, max_tokens := none, top_p := none,
        frequency_penalty := none, presence_penalty := none }).2.map
      (fun r => r.messages)) =
      [[{ role := ChatRole.user, content := ChatContent.str "hi" }]] ∧
    ([{ role := ChatRole.user, content := ChatContent.str "hi" }]
      : List ChatMessage).length ≠ 2 := by
  exact ⟨rfl, rfl, by simp⟩

/-- C6 amended: for every valid chat input whose `system_prompt` is present
and non-empty the upstream message list is exactly `[system, user]` in that
order, regardless of the other optional parameters; with an absent — or
empty — `system_prompt` it is exactly the one user message; exactly one
upstream request is made and the sampling parameters are forwarded onto it
unchanged (temperature defaulting to 0.7 when absent). -/
theorem C6_message_order_amended
    (oracle : ChatCompletionRequest → Except String ChatCompletionResponse)
    (input : ChatInput) (v : ChatValidated)
    (hv : chatSchemaParse input = Except.ok v) :
    (∀ s, v.system_prompt = some s → s ≠ "" →
      chatMessages v =
        [{ role := ChatRole.system, content := ChatContent.str s },
         { role := ChatRole.user, content := ChatContent.str v.message }]) ∧
    ((v.system_prompt = none ∨ v.system_prompt = some "") →
      chatMessages v = [{ role := ChatRole.user, content := ChatContent.str v.message }]) ∧
    (handleChat oracle input).2 = [chatRequest v] ∧
    (chatRequest v).messages = chatMessages v ∧
    (chatRequest v).temperature = some v.temperature ∧
    (chatRequest v).max_tokens = v.max_tokens ∧
    (chatRequest v).top_p = v.top_p ∧
    (chatRequest v).frequency_penalty = v.frequency_penalty ∧
    (chatRequest v).presence_penalty = v.presence_penalty ∧
    v.message = input.message ∧
    v.temperature = input.temperature.getD chatDefaultTemperature ∧
    v.max_tokens = input.max_tokens ∧
    v.top_p = input.top_p ∧
    v.frequency_penalty = input.frequency_penalty ∧
    v.presence_penalty = input.presence_penalty := by
  have hinv := chatSchemaParse_ok_inv input v hv
  refine ⟨?_, ?_, ?_, rfl, rfl, rfl, rfl, rfl, rfl, ?_, ?_, ?_, ?_, ?_, ?_⟩
  · intro s hs hne
    simp [chatMessages, hs, hne]
  · intro hs
    rcases hs with hs | hs <;> simp [chatMessages, hs]
  · simp only [handleChat, hv]
    match hres : oracle (chatRequest v) with
    | Except.error e => simp
    | Except.ok resp => simp
  · rw [hinv]
  · rw [hinv]
  · rw [hinv]
  · rw [hinv]
  · rw [hinv]
  · rw [hinv]

/-- C6 amended witness: a concrete non-empty system prompt together with
every sampling parameter supplied. -/
theorem C6_message_order_amended_witness :
    chatMessages
      { message := "hi", model := "grok-3", system_prompt := some "be brief",
        temperature := 1, max_tokens := some 256, top_p := some (1 / 2),
        frequency_penalty := some 1, presence_penalty := some (-1) } =
      [{ role := ChatRole.system, content := ChatContent.str "be brief" },
       { role := ChatRole.user, content := ChatContent.str "hi" }] ∧
    (handleChat (fun _ => Except.error "stop")
      { message := "hi", model := none, system_prompt := some "be brief",
        temperature := some 1, max_tokens := some 256, top_p := some (1 / 2),
        frequency_penalty := some 1, presence_penalty := some (-1) }).2 =
      [chatRequest
        { message := "hi", model := "grok-3", system_prompt := some "be brief",
          temperature := 1, max_tokens := some 256, top_p := some (1 / 2),
          frequency_penalty := some 1, presence_penalty := some (-1) }] := by
  have h := C6_message_order_amended (fun _ => Except.error "stop")
    { message := "hi", model := none, system_prompt := some "be brief",
      temperature := some 1, max_tokens := some 256, top_p := some (1 / 2),
      frequency_penalty := some 1, presence_penalty := some (-1) }
    { message := "hi", model := "grok-3", system_prompt := some "be brief",
      temperature := 1, max_tokens := some 256, top_p := some (1 / 2),
      frequency_penalty := some 1, presence_penalty := some (-1) }
    (by norm_num [chatSchemaParse, ratInRange])
  exact ⟨h.1 "be brief" rfl (by decide), h.2.2.1⟩

/-- C9: For a chat call whose upstream response has an empty `choices`
list, or a first choice with missing/null message content, the handler
still succeeds: it returns the rendered output object whose `success` field
is `true` and whose `response` field is the literal fallback string
`No response`, rather than failing. -/
theorem C9_no_response_fallback
    (oracle : ChatCompletionRequest → Except String ChatCompletionResponse)
    (input : ChatInput) (v : ChatValidated) (resp : ChatCompletionResponse)
    (hv : chatSchemaParse input = Except.ok v)
    (ho : oracle (chatRequest v) = Except.ok resp)
    (hr : resp.choices = [] ∨
      ∃ c rest, resp.choices = c :: rest ∧ c.message.content = none) :
    handleChat oracle input =
      (Except.ok (renderJson 0 (chatOutputJson resp)), [chatRequest v]) ∧
    chatReply resp = "No response" ∧
    ∃ rest, chatOutputJson resp =
      Json.obj (("success", Json.bool true) :: ("model", Json.str resp.model) ::
        ("response", Json.str "No response") :: rest) := by
  have hreply : chatReply resp = "No response" := by
    rcases hr with h | ⟨c, rest, hc, hcontent⟩
    · simp [chatReply, h, jsOrElse]
    · simp [chatReply, hc, hcontent, jsOrElse]
  refine ⟨?_, hreply, ?_⟩
  · simp [handleChat, hv, ho]
  · refine ⟨[("usage", chatUsageJson resp.usage)] ++
      optField "finish_reason" (resp.choices.head?.map (fun c => Json.str c.finish_reason)), ?_⟩
    simp [chatOutputJson, hreply]

/-- C9 witness: a concrete upstream response with an empty choices list. -/
theorem C9_no_response_fallback_witness :
    handleChat
      (fun _ => Except.ok
        { id := "r-1", object := "chat.completion", created := 1, model := "grok-3",
          choices := [],
          usage := { prompt_tokens := 1, completion_tokens := 2, total_tokens := 3 } })
      { message := "hi", model := none, system_prompt := none,
        temperature := none, max_tokens := none, top_p := none,
        frequency_penalty := none, presence_penalty := none } =
      (Except.ok (renderJson 0 (chatOutputJson
        { id := "r-1", object := "chat.completion", created := 1, model := "grok-3",
          choices := [],
          usage := { prompt_tokens := 1, completion_tokens := 2, total_tokens := 3 } })),
       [chatRequest
         { message := "hi", model := "grok-3", system_prompt := none,
           temperature := chatDefaultTemperature, max_tokens := none, top_p := none,
           frequency_penalty := none, presence_penalty := none }]) ∧
    chatReply
      { id := "r-1", object := "chat.completion", created := 1, model := "grok-3",
        choices := [],
        usage := { prompt_tokens := 1, completion_tokens := 2, total_tokens := 3 } } =
      "No response" := by
  have h := C9_no_response_fallback
    (fun _ => Except.ok
      { id := "r-1", object := "chat.completion", created := 1, model := "grok-3",
        choices := [],
        usage := { prompt_tokens := 1, completion_tokens := 2, total_tokens := 3 } })
    { message := "hi", model := none, system_prompt := none,
      temperature := none, max_tokens := none, top_p := none,
      frequency_penalty := none, presence_penalty := none }
    { message := "hi", model := "grok-3", system_prompt := none,
      temperature := chatDefaultTemperature, max_tokens := none, top_p := none,
      frequency_penalty := none, presence_penalty := none }
    { id := "r-1", object := "chat.completion", created := 1, model := "grok-3",
      choices := [],
      usage := { prompt_tokens := 1, completion_tokens := 2, total_tokens := 3 } }
    rfl rfl (Or.inl rfl)
  exact ⟨h.1, h.2.1⟩

/-- C10: For a `live_search` call that reaches the upstream, exactly one
`/responses` request is built; its serialized body has exactly the keys
`model`, `input`, `tools`, `store` — never a `max_results` field — and the
validated `max_results` only alters the query text, which is sent as the
single user input message with the
`(provide up to N relevant results)` hint appended. -/
theorem C10_max_results_only_in_query
    (oracle : ResponsesRequest → Except String ResponsesResponse)
    (input : LiveSearchInput) (v : LiveSearchValidated)
    (hv : liveSearchSchemaParse input = Except.ok v)
    (hw : webConflict v = false) (hx : xConflict v = false) :
    ∃ req : ResponsesRequest,
      (handleLiveSearch oracle input).2 = [req] ∧
      responsesRequestKeys req = ["model", "input", "tools", "store"] ∧
      "max_results" ∉ responsesRequestKeys req ∧
      req.input =
        [{ role := "user",
           content := v.query ++ " (provide up to " ++ jsNumToString v.max_results ++
             " relevant results)" }] := by
  have hpos := liveSearch_max_results_pos input v hv
  have haug : augmentQuery v.query v.max_results =
      v.query ++ " (provide up to " ++ jsNumToString v.max_results ++
        " relevant results)" := by
    simp [augmentQuery, hpos]
  refine ⟨buildLiveSearchRequest
    { query := augmentQuery v.query v.max_results
      sources := some v.sources
      web_filters := v.web_filters.map mapWebFilters
      x_filters := v.x_filters.map mapXFilters
      max_results := none }, ?_, rfl, by simp [responsesRequestKeys], ?_⟩
  · simp only [handleLiveSearch, hv]
    cases hres : oracle (buildLiveSearchRequest
      { query := augmentQuery v.query v.max_results
        sources := some v.sources
        web_filters := v.web_filters.map mapWebFilters
        x_filters := v.x_filters.map mapXFilters
        max_results := none }) <;>
      simp [hw, hx, liveSearch, hres]
  · simp [buildLiveSearchRequest, haug]

/-- C10 witness: a concrete query with default `max_results` 10; the built
request body has no `max_results` key and carries the hint-augmented query. -/
theorem C10_max_results_only_in_query_witness :
    ∃ req : ResponsesRequest,
      (handleLiveSearch (fun _ => Except.error "unreachable")
        { query := "latest news", sources := none, web_filters := none,
          x_filters := none, max_results := none }).2 = [req] ∧
      responsesRequestKeys req = ["model", "input", "tools", "store"] ∧
      "max_results" ∉ responsesRequestKeys req ∧
      req.input =
        [{ role := "user",
           content := "latest news" ++ " (provide up to " ++ jsNumToString 10 ++
             " relevant results)" }] :=
  C10_max_results_only_in_query (fun _ => Except.error "unreachable")
    { query := "latest news", sources := none, web_filters := none,
      x_filters := none, max_results := none }
    { query := "latest news", sources := ["web"], web_filters := none,
      x_filters := none, max_results := 10 }
    rfl rfl rfl
